import Mathlib

/-!
Shallow embedding of the payment backend of `captive-access-pass`
(source file `src/unnamed/part_002`, an Express + MongoDB service).

Modelling conventions:
* Timestamps are integers (milliseconds since the epoch); adding `n` days
  is adding `n * 86400000`, matching `Date.setDate(getDate() + days)` on
  the UTC instants used throughout the spec's scenarios.
* A MongoDB collection is a list of records in insertion order.
  `insertOne` appends; it raises a duplicate-key error (code 11000) iff
  the collection has a *unique* index on `email` and a record with that
  email is already present.  `updateOne` with a `$set` updates the first
  matching record.  Which email indexes are unique is taken verbatim from
  `createIndexes` (lines 189-218): `customers` gets
  `createIndex({email: 1}, {unique: true})`; `active` only gets
  `createIndex({email: 1})` with no unique option; `transactions` has no
  unique index.
* A storage failure unrelated to the unique key (connectivity etc.) is
  injected through a `Faults` record: one flag per write step, `true`
  meaning that step's store write throws a non-duplicate error.
* JavaScript exceptions are `Except` values; an `async` function whose
  body is wrapped in `try/catch` is a total function on the store.
-/

namespace CaptivePass

/-- Milliseconds in one day. -/
def msPerDay : Int := 86400000

/-- `interface Customer` (lines 278-282). -/
structure Customer where
  email : String
  createdAt : Int
  updatedAt : Int
  deriving Repr, DecidableEq

/-- `interface Transaction` (lines 284-290). -/
structure Transaction where
  email : String
  paid_on : Int
  expires_on : Int
  service : String
  amount : Int
  deriving Repr, DecidableEq

/-- `interface ActiveUser` (lines 292-297). -/
structure ActiveUser where
  email : String
  paid_on : Int
  expires_on : Int
  service : String
  deriving Repr, DecidableEq

/-- The three MongoDB collections (`customers`, `transactions`, `active`),
each modelled as its list of records in insertion order. -/
structure Store where
  customers : List Customer
  transactions : List Transaction
  active : List ActiveUser
  deriving Repr, DecidableEq

def emptyStore : Store := ⟨[], [], []⟩

/-- Whether the email index on a collection is unique (a `createIndex`
call with `{ unique: true }`). -/
structure IndexSpec where
  unique : Bool
  deriving Repr, DecidableEq

/-- `createIndexes` line 192: `customersCollection.createIndex({ email: 1 }, { unique: true })`. -/
def customersEmailIndex : IndexSpec := ⟨true⟩

/-- `createIndexes` line 204: `active_users.createIndex({ email: 1 })` — no unique option. -/
def activeEmailIndex : IndexSpec := ⟨false⟩

/-- `createIndexes` line 195: `transactionsCollection.createIndex({ email: 1 })` — no unique option. -/
def transactionsEmailIndex : IndexSpec := ⟨false⟩

/-- MongoDB `updateOne`: update the first record matching the filter. -/
def updateFirst (p : α → Bool) (f : α → α) : List α → List α
  | [] => []
  | x :: xs => if p x then f x :: xs else x :: updateFirst p f xs

/-- A store write failing with an error other than duplicate-key:
either an injected failure (connectivity, ...) or a deterministic
JSON-schema rejection (`createValidationRules`, MongoDB error code 121)
— both take the `throw error` paths, never the code-11000 branch. -/
inductive StoreErr
  | storeFailure
  | validationFailure
  deriving Repr, DecidableEq

/-- Injected non-duplicate store failures, one flag per write step of the
reconciliation (`true` = that step's store call throws). -/
structure Faults where
  customerWrite : Bool
  transactionWrite : Bool
  activeWrite : Bool
  deriving Repr, DecidableEq

def noFaults : Faults := ⟨false, false, false⟩

/-- `calculateExpiryDate(amount, paidDate)` (lines 586-603): `days`
defaults to 1, is set to 1 / 30 / 90 when `amount === 500` / `11000` /
`25000`, and the result is `paidDate` advanced by `days` days. -/
def calculateExpiryDate (amount : Int) (paidDate : Int) : Int :=
  let days : Int :=
    if amount = 500 then 1
    else if amount = 11000 then 30
    else if amount = 25000 then 90
    else 1
  paidDate + days * msPerDay

/-- `createOrUpdateCustomer(customerData)` (lines 490-528): blind
`insertOne {email, createdAt: now, updatedAt: now}`; on duplicate-key
(possible because `customers.email` has a unique index) fall back to
`updateOne` setting only `updatedAt` (the `email`/`createdAt` keys are
deleted from the update object). A non-duplicate failure is re-thrown. -/
def createOrUpdateCustomer (fault : Bool) (now : Int) (email : String)
    (s : Store) : Except StoreErr Store :=
  if fault then .error .storeFailure
  else if customersEmailIndex.unique && s.customers.any (fun c => c.email == email) then
    .ok { s with customers :=
      (updateFirst (fun c => c.email == email) (fun c => { c with updatedAt := now }) s.customers) }
  else
    .ok { s with customers := s.customers ++ [⟨email, now, now⟩] }

/-- `createTransaction(transactionData)` (lines 568-583): always an
`insertOne` (the `transactions` collection has no unique index and the
function has no dedup check); `paid_on` defaults to `now` when absent.
`createValidationRules` (lines 118-150) installs a JSON-schema validator
on `transactions` with `amount: {bsonType: "number", minimum: 0}` under
MongoDB's default strict/error validation, so the insert is
deterministically rejected (error code 121, not 11000) when the amount
is negative. -/
def createTransaction (fault : Bool) (now : Int) (email : String)
    (paid_on : Option Int) (expires_on : Int) (service : String) (amount : Int)
    (s : Store) : Except StoreErr Store :=
  if fault then .error .storeFailure
  else if amount < 0 then .error .validationFailure
  else
    .ok { s with transactions :=
      (s.transactions ++ [⟨email, paid_on.getD now, expires_on, service, amount⟩]) }

/-- `createOrUpdateActiveUser(userData)` (lines 530-566): blind
`insertOne`; a duplicate-key fallback to `updateOne` (setting `paid_on`,
`expires_on`, `service`) exists in the code, but `insertOne` only raises
code 11000 when a unique index is violated, and `activeEmailIndex` is not
unique — so the insert branch is always taken (absent injected faults). -/
def createOrUpdateActiveUser (fault : Bool) (email : String)
    (paid_on expires_on : Int) (service : String)
    (s : Store) : Except StoreErr Store :=
  if fault then .error .storeFailure
  else if activeEmailIndex.unique && s.active.any (fun a => a.email == email) then
    .ok { s with active :=
      (updateFirst (fun a => a.email == email)
        (fun a => { a with paid_on := paid_on, expires_on := expires_on, service := service })
        s.active) }
  else
    .ok { s with active := s.active ++ [⟨email, paid_on, expires_on, service⟩] }

/-- The `data` object of a webhook event, with the fields the handlers
read. `customer` is `some email` when `data.customer` is present (reading
`.email` of a missing `customer` object throws a TypeError in JS). -/
structure WData where
  customer : Option String
  paid_at : Int
  amount : Int
  reference : Option String
  deriving Repr, DecidableEq

/-- `handleSuccessfulPayment(paymentData)` (lines 606-640): computes the
paid date and expiry, then runs the three writes — Customer upsert,
Transaction insert, ActiveUser upsert — inside one `try { ... } catch`
that only logs. A missing `data` or `data.customer` makes the property
access throw inside that same `try`, so the function never throws and the
store keeps whatever writes completed before the first failure. -/
def handleSuccessfulPayment (f : Faults) (now : Int) (data : Option WData)
    (s : Store) : Store :=
  match data with
  | none => s
  | some d =>
    match d.customer with
    | none => s
    | some email =>
      let paidDate := d.paid_at
      let expiryDate := calculateExpiryDate d.amount paidDate
      match createOrUpdateCustomer f.customerWrite now email s with
      | .error _ => s
      | .ok s1 =>
        match createTransaction f.transactionWrite now email (some paidDate)
            expiryDate "SKYNET" d.amount s1 with
        | .error _ => s1
        | .ok s2 =>
          match createOrUpdateActiveUser f.activeWrite email paidDate
              expiryDate "SKYNET" s2 with
          | .error _ => s2
          | .ok s3 => s3

/-- `handleFailedPayment(paymentData)` (lines 642-650): logs
`{reference, amount, customer: paymentData.customer.email}` and writes
nothing; it throws a TypeError iff `data` or `data.customer` is missing. -/
def handleFailedPayment (data : Option WData) : Except StoreErr Unit :=
  match data with
  | none => .error .storeFailure
  | some d =>
    match d.customer with
    | none => .error .storeFailure
    | some _ => .ok ()

/-- An inbound webhook request body: `event` is `some kind` when the JSON
object carries an `event` field, and `data` its (possibly absent) data. -/
structure WebhookReq where
  event : Option String
  data : Option WData
  deriving Repr, DecidableEq

inductive HttpStatus
  | ok200
  | err500
  deriving Repr, DecidableEq

/-- The `/api/webhook/paystack` route (lines 417-460): switch on
`event.event`; `charge.success` fires `handleSuccessfulPayment` (an async
call that is not awaited and swallows its own errors), `charge.failed`
calls `handleFailedPayment` synchronously, `transfer.success`,
`transfer.failed` and the default case only log. The whole switch sits in
a `try/catch`; the catch responds 500, otherwise the route responds 200. -/
def webhookPaystack (f : Faults) (now : Int) (req : WebhookReq)
    (s : Store) : HttpStatus × Store :=
  if req.event = some "charge.success" then
    (.ok200, handleSuccessfulPayment f now req.data s)
  else if req.event = some "charge.failed" then
    match handleFailedPayment req.data with
    | .ok _ => (.ok200, s)
    | .error _ => (.err500, s)
  else if req.event = some "transfer.success" then (.ok200, s)
  else if req.event = some "transfer.failed" then (.ok200, s)
  else (.ok200, s)

/-- The `amount` field of an initialize-payment request body: absent, a
JSON number, or a JSON string (the route accepts both, line 230). -/
inductive AmountField
  | absent
  | num (n : Int)
  | str (s : String)
  deriving Repr, DecidableEq

/-- Outcome of `/api/payment/initialize`: either a 400 validation
rejection (no gateway call happens) or a forward of `{email, amount}` to
`paystackAPI("/transaction/initialize", "POST", ...)`. -/
inductive InitOutcome
  | badRequest (msg : String)
  | forward (email : String) (amount : Int)
  deriving Repr, DecidableEq

/-- JS truthiness of the `email` field: falsy when absent or `""`. -/
def truthyEmail : Option String → Bool
  | none => false
  | some e => e != ""

/-- JS truthiness of the `amount` field: falsy when absent, the number 0,
or `""`. -/
def truthyAmount : AmountField → Bool
  | .absent => false
  | .num n => n != 0
  | .str a => a != ""

/-- `typeof amount === "string" ? parseFloat(amount) : amount` (line
347-348): a number passes through; a string goes through `parseFloat`,
modelled by an abstract parse function `pf` returning `none` for NaN. -/
def parseAmount (pf : String → Option Int) : AmountField → Option Int
  | .absent => none
  | .num n => some n
  | .str a => pf a

/-- The `/api/payment/initialize` route (lines 334-381): 400 when
`!email || !amount`; otherwise convert the amount, 400 when
`isNaN(numericAmount) || numericAmount <= 0`; otherwise call the gateway
with `{email, amount: numericAmount}`. -/
def initializePayment (pf : String → Option Int) (email : Option String)
    (amount : AmountField) : InitOutcome :=
  if !(truthyEmail email) || !(truthyAmount amount) then
    .badRequest "Email and amount are required"
  else
    match parseAmount pf amount with
    | none => .badRequest "Amount must be a valid positive number"
    | some n =>
      if n ≤ 0 then .badRequest "Amount must be a valid positive number"
      else .forward (email.getD "") n

/-- Whether the route rejected the request with a 400 response. -/
def isBadRequest : InitOutcome → Bool
  | .badRequest _ => true
  | .forward _ _ => false

/-- The transactions recorded for one email. -/
def transactionsFor (s : Store) (email : String) : List Transaction :=
  s.transactions.filter (fun t => t.email == email)

/-- The active-subscription records recorded for one email. -/
def activeFor (s : Store) (email : String) : List ActiveUser :=
  s.active.filter (fun a => a.email == email)

end CaptivePass

namespace CaptivePass

/-- C1: replaying the identical `charge.success` event (same reference,
email, amount and `paid_at`) twice against an empty store leaves TWO
Transaction records and TWO ActiveUser records for the email, not one of
each: `createTransaction` has no dedup check, and the `active` insert
never hits a duplicate-key error because its email index is not unique. -/
theorem replay_duplicates_ledger :
    (let d : Option WData := some ⟨some "u@example.com", 100, 500, some "ref_1"⟩
     let s1 := handleSuccessfulPayment noFaults 10 d emptyStore
     let s2 := handleSuccessfulPayment noFaults 20 d s1
     (transactionsFor s2 "u@example.com").length = 2 ∧
     (activeFor s2 "u@example.com").length = 2 ∧
     s2.customers.length = 1) := by
  decide

/-- C2: a second successful payment for an email that already has an
active record APPENDS a second ActiveUser record instead of overwriting:
the `active` collection's email index is created without `unique: true`,
so the blind `insertOne` in `createOrUpdateActiveUser` succeeds and its
duplicate-key update branch is unreachable. -/
theorem second_payment_appends_active :
    (let s1 := handleSuccessfulPayment noFaults 10
       (some ⟨some "u@example.com", 100, 500, some "r1"⟩) emptyStore
     let s2 := handleSuccessfulPayment noFaults 20
       (some ⟨some "u@example.com", 200, 11000, some "r2"⟩) s1
     (activeFor s2 "u@example.com").length = 2) := by
  decide

/-- C3: two payments for one email with `paid_on` T1 = 100 < T2 = 200
delivered out of order (T2 first, then T1) do NOT leave a single active
record with `paid_on = T2`: there is no conditional-timestamp write (and
no unique email index), so the store ends with both records appended,
the stale T1 record last. -/
theorem out_of_order_keeps_stale_record :
    (let s1 := handleSuccessfulPayment noFaults 10
       (some ⟨some "u@example.com", 200, 500, some "rB"⟩) emptyStore
     let s2 := handleSuccessfulPayment noFaults 20
       (some ⟨some "u@example.com", 100, 500, some "rA"⟩) s1
     (activeFor s2 "u@example.com").map (fun a => a.paid_on) = [200, 100] ∧
     ¬ (activeFor s2 "u@example.com").map (fun a => a.paid_on) = [200]) := by
  decide

/-- C7: the three reconciliation writes share a single `try/catch`, so a
store failure in the Customer upsert aborts the Transaction insert and
the ActiveUser upsert (the store stays empty), even though only the first
step's write faulted; the webhook acknowledgment is still 200. -/
theorem customer_fault_aborts_remaining_writes :
    handleSuccessfulPayment ⟨true, false, false⟩ 7
      (some ⟨some "u@example.com", 100, 500, some "r1"⟩) emptyStore = emptyStore ∧
    (webhookPaystack ⟨true, false, false⟩ 7
      ⟨some "charge.success", some ⟨some "u@example.com", 100, 500, some "r1"⟩⟩
      emptyStore).1 = .ok200 := by
  decide

/-- C5: a syntactically valid webhook body — a JSON object with an
`event` field, here `{event: "charge.failed", data: {}}` — is answered
with 500, not 200: `handleFailedPayment` reads
`paymentData.customer.email` while logging, the missing `customer` object
makes that throw, and the route's catch responds 500. The store is left
unchanged. -/
theorem webhook_500_on_charge_failed_missing_customer (f : Faults) (now : Int) (s : Store) :
    webhookPaystack f now ⟨some "charge.failed", some ⟨none, 0, 0, none⟩⟩ s = (.err500, s) := by
  rfl

/-- C4: the tier table of `calculateExpiryDate`: 500 → 1 day,
11000 → 30 days, 25000 → 90 days, anything else → 1 day. -/
theorem calculateExpiryDate_tiers (paid_on : Int) (amount : Int) :
    calculateExpiryDate 500 paid_on = paid_on + msPerDay ∧
    calculateExpiryDate 11000 paid_on = paid_on + 30 * msPerDay ∧
    calculateExpiryDate 25000 paid_on = paid_on + 90 * msPerDay ∧
    (amount ≠ 500 → amount ≠ 11000 → amount ≠ 25000 →
      calculateExpiryDate amount paid_on = paid_on + msPerDay) := by
  refine ⟨by simp [calculateExpiryDate], by norm_num [calculateExpiryDate],
    by norm_num [calculateExpiryDate], fun h1 h2 h3 => ?_⟩
  simp [calculateExpiryDate, h1, h2, h3]

/-- C4 witness: the spec's concrete scenarios, at
`paid_on = 2024-01-01T00:00:00Z = 1704067200000` and unmatched amount 999. -/
theorem calculateExpiryDate_tiers_witness :
    calculateExpiryDate 500 1704067200000 = 1704153600000 ∧
    calculateExpiryDate 11000 1704067200000 = 1706659200000 ∧
    calculateExpiryDate 25000 1704067200000 = 1711843200000 ∧
    calculateExpiryDate 999 1704067200000 = 1704153600000 := by
  obtain ⟨h1, h2, h3, h4⟩ := calculateExpiryDate_tiers 1704067200000 999
  refine ⟨h1, by rw [h2]; norm_num [msPerDay], by rw [h3]; norm_num [msPerDay],
    by rw [h4 (by decide) (by decide) (by decide)]; norm_num [msPerDay]⟩

/-- `updateOne` skips records that fail the filter: updating the first
match of `l ++ l2` reduces to updating inside `l2` when nothing in `l`
matches. -/
theorem updateFirst_append_of_forall (p : α → Bool) (f : α → α) (l l2 : List α)
    (h : ∀ a ∈ l, p a = false) : updateFirst p f (l ++ l2) = l ++ updateFirst p f l2 := by
  induction l with
  | nil => rfl
  | cons x xs ih =>
    have hx : p x = false := h x (List.mem_cons_self x xs)
    have hxs : ∀ a ∈ xs, p a = false := fun a ha => h a (List.mem_cons_of_mem x ha)
    simp [updateFirst, hx, ih hxs]

/-- C6: upserting a customer email that is not yet stored inserts exactly
one record with `createdAt = updatedAt = now1`; a second upsert at a
later `now2` keeps `email` and `createdAt` and bumps `updatedAt` to
`now2 > now1`. -/
theorem customer_upsert_createdAt_write_once (s : Store) (email : String) (now1 now2 : Int)
    (habs : ∀ c ∈ s.customers, (c.email == email) = false) (hlt : now1 < now2) :
    ∃ s1 s2,
      createOrUpdateCustomer false now1 email s = .ok s1 ∧
      createOrUpdateCustomer false now2 email s1 = .ok s2 ∧
      s1.customers.filter (fun c => c.email == email) = [⟨email, now1, now1⟩] ∧
      s2.customers.filter (fun c => c.email == email) = [⟨email, now1, now2⟩] ∧
      now1 < now2 := by
  have hany : s.customers.any (fun c => c.email == email) = false := by
    rw [List.any_eq_false]
    intro c hc
    simp [habs c hc]
  have hnil : s.customers.filter (fun c => c.email == email) = [] := by
    rw [List.filter_eq_nil_iff]
    intro c hc
    simp [habs c hc]
  refine ⟨{ s with customers := s.customers ++ [⟨email, now1, now1⟩] },
          { s with customers := s.customers ++ [⟨email, now1, now2⟩] }, ?_, ?_, ?_, ?_, hlt⟩
  · simp [createOrUpdateCustomer, customersEmailIndex, hany]
  · have hupd : updateFirst (fun c => c.email == email)
        (fun c => { c with updatedAt := now2 })
        (s.customers ++ [(⟨email, now1, now1⟩ : Customer)]) =
        s.customers ++ [(⟨email, now1, now2⟩ : Customer)] := by
      rw [updateFirst_append_of_forall _ _ _ _ habs]
      simp [updateFirst]
    simp [createOrUpdateCustomer, customersEmailIndex, List.any_append, hany, hupd]
  · simp [List.filter_append, hnil]
  · simp [List.filter_append, hnil]

/-- C6 witness: two upserts for a fresh email on the empty store, at
times 1 then 2. -/
theorem customer_upsert_write_once_witness :
    ∃ s1 s2,
      createOrUpdateCustomer false 1 "u@example.net" emptyStore = .ok s1 ∧
      createOrUpdateCustomer false 2 "u@example.net" s1 = .ok s2 ∧
      s1.customers.filter (fun c => c.email == "u@example.net") = [⟨"u@example.net", 1, 1⟩] ∧
      s2.customers.filter (fun c => c.email == "u@example.net") = [⟨"u@example.net", 1, 2⟩] ∧
      (1 : Int) < 2 :=
  customer_upsert_createdAt_write_once emptyStore "u@example.net" 1 2 (by simp [emptyStore]) (by decide)

/-- C8: any webhook whose event kind is not `charge.success` —
`charge.failed`, `transfer.success`, `transfer.failed`, an unrecognized
kind, or a missing `event` field — leaves all three collections
unchanged: only the `charge.success` branch writes to the store. -/
theorem non_success_events_leave_store_unchanged (f : Faults) (now : Int)
    (req : WebhookReq) (s : Store) (h : req.event ≠ some "charge.success") :
    (webhookPaystack f now req s).2 = s := by
  unfold webhookPaystack
  rw [if_neg h]
  by_cases h2 : req.event = some "charge.failed"
  · rw [if_pos h2]
    cases handleFailedPayment req.data <;> rfl
  · rw [if_neg h2]
    split_ifs <;> rfl

/-- C8 witness: a `transfer.success` event against the empty store. -/
theorem non_success_events_witness :
    (webhookPaystack noFaults 0 ⟨some "transfer.success", none⟩ emptyStore).2 = emptyStore :=
  non_success_events_leave_store_unchanged noFaults 0 ⟨some "transfer.success", none⟩
    emptyStore (by decide)

/-- C10 counterexample: a `charge.success` event carrying amount -100
does NOT yield an entitlement window: the transactions schema validator
(`amount: minimum 0`) rejects the ledger insert, the error lands in
`handleSuccessfulPayment`'s single catch, and the ActiveUser upsert never
runs — the store ends with the customer record only, no transaction and
no active record. -/
theorem negative_amount_no_entitlement_window :
    (let s := handleSuccessfulPayment noFaults 5
       (some ⟨some "u@example.org", 0, -100, none⟩) emptyStore
     activeFor s "u@example.org" = [] ∧
     transactionsFor s "u@example.org" = [] ∧
     s.customers.length = 1) := by
  decide

/-- C10 amended: `calculateExpiryDate` itself is total — every amount
outside {500, 11000, 25000}, zero and negatives included, falls through
to the 1-day default — and a `charge.success` reconciliation for such an
amount records a one-day entitlement window when the amount is
non-negative (zero passes the schema validator's `minimum: 0`); a
negative amount is rejected by the validator at the Transaction insert,
aborting the reconciliation before the ActiveUser upsert, so no
entitlement window is written. -/
theorem unmatched_amount_default_and_validation (a p now : Int) (email : String)
    (h5 : a ≠ 500) (h11 : a ≠ 11000) (h25 : a ≠ 25000) :
    calculateExpiryDate a p = p + msPerDay ∧
    (0 ≤ a →
      activeFor (handleSuccessfulPayment noFaults now (some ⟨some email, p, a, none⟩) emptyStore)
        email = [⟨email, p, p + msPerDay, "SKYNET"⟩]) ∧
    (a < 0 →
      activeFor (handleSuccessfulPayment noFaults now (some ⟨some email, p, a, none⟩) emptyStore)
        email = []) := by
  have hc : calculateExpiryDate a p = p + msPerDay := by
    simp [calculateExpiryDate, h5, h11, h25]
  refine ⟨hc, fun ha => ?_, fun ha => ?_⟩
  · simp [handleSuccessfulPayment, createOrUpdateCustomer, createTransaction,
      createOrUpdateActiveUser, customersEmailIndex, activeEmailIndex, emptyStore,
      noFaults, activeFor, hc, not_lt.mpr ha]
  · simp [handleSuccessfulPayment, createOrUpdateCustomer, createTransaction,
      createOrUpdateActiveUser, customersEmailIndex, emptyStore,
      noFaults, activeFor, ha]

/-- C10 witness: amount 0 (unmatched, non-negative) yields the one-day
window; amount -100 yields none. -/
theorem unmatched_amount_validation_witness :
    (calculateExpiryDate 0 100 = 100 + msPerDay ∧
     activeFor (handleSuccessfulPayment noFaults 7
         (some ⟨some "u@example.org", 100, 0, none⟩) emptyStore)
       "u@example.org" = [⟨"u@example.org", 100, 100 + msPerDay, "SKYNET"⟩]) ∧
    activeFor (handleSuccessfulPayment noFaults 7
        (some ⟨some "u@example.org", 100, -100, none⟩) emptyStore)
      "u@example.org" = [] :=
  ⟨⟨(unmatched_amount_default_and_validation 0 100 7 "u@example.org"
      (by decide) (by decide) (by decide)).1,
    (unmatched_amount_default_and_validation 0 100 7 "u@example.org"
      (by decide) (by decide) (by decide)).2.1 (by decide)⟩,
    (unmatched_amount_default_and_validation (-100) 100 7 "u@example.org"
      (by decide) (by decide) (by decide)).2.2 (by decide)⟩

/-- C9: the initialize route rejects with 400 — making no gateway call —
when the email is absent, the amount is absent, the amount is a string
that does not parse to a number, or the numeric amount is not strictly
positive; and every request it does forward carries the present email and
a strictly positive parsed amount. -/
theorem initialize_validation (pf : String → Option Int) (email : Option String)
    (amount : AmountField) :
    (email = none → isBadRequest (initializePayment pf email amount) = true) ∧
    (amount = .absent → isBadRequest (initializePayment pf email amount) = true) ∧
    (∀ a, amount = AmountField.str a → pf a = none →
      isBadRequest (initializePayment pf email amount) = true) ∧
    (∀ n, parseAmount pf amount = some n → n ≤ 0 →
      isBadRequest (initializePayment pf email amount) = true) ∧
    (∀ e n, initializePayment pf email amount = .forward e n →
      email = some e ∧ 0 < n ∧ parseAmount pf amount = some n) := by
  refine ⟨?_, ?_, ?_, ?_, ?_⟩
  · rintro rfl
    simp [initializePayment, truthyEmail, isBadRequest]
  · rintro rfl
    simp [initializePayment, truthyAmount, isBadRequest]
  · rintro a rfl hpf
    unfold initializePayment
    split_ifs
    · rfl
    · simp [parseAmount, hpf, isBadRequest]
  · intro n hn hle
    unfold initializePayment
    split_ifs
    · rfl
    · rw [hn]
      simp [isBadRequest, hle]
  · intro e n heq
    unfold initializePayment at heq
    by_cases hc : (!(truthyEmail email) || !(truthyAmount amount)) = true
    · rw [if_pos hc] at heq
      exact absurd heq (by simp)
    · rw [if_neg hc] at heq
      simp only [Bool.or_eq_true, Bool.not_eq_true'] at hc
      push_neg at hc
      rcases hpa : parseAmount pf amount with _ | m
      · rw [hpa] at heq
        exact absurd heq (by simp)
      · rw [hpa] at heq
        by_cases hle : m ≤ 0
        · simp [hle] at heq
        · simp only [hle, if_false, if_neg hle, InitOutcome.forward.injEq] at heq
          obtain ⟨h1, h2⟩ := heq
          rcases email with _ | e0
          · simp [truthyEmail] at hc
          · simp only [Option.getD_some] at h1
            exact ⟨by rw [h1], by omega, by rw [h2]⟩

/-- C9 witness: concrete rejections (missing email, missing amount,
unparseable string amount, negative amount) under a parse function that
returns NaN for every string. -/
theorem initialize_validation_witness :
    isBadRequest (initializePayment (fun _ => none) none (.num 5)) = true ∧
    isBadRequest (initializePayment (fun _ => none) (some "a@b.io") .absent) = true ∧
    isBadRequest (initializePayment (fun _ => none) (some "a@b.io") (.str "abc")) = true ∧
    isBadRequest (initializePayment (fun _ => none) (some "a@b.io") (.num (-3))) = true := by
  refine ⟨(initialize_validation _ none (.num 5)).1 rfl,
    (initialize_validation _ (some "a@b.io") .absent).2.1 rfl,
    (initialize_validation _ (some "a@b.io") (.str "abc")).2.2.1 "abc" rfl rfl,
    (initialize_validation _ (some "a@b.io") (.num (-3))).2.2.2.1 (-3) rfl (by decide)⟩

end CaptivePass
